import Mathlib

/-!
Shallow embedding of the CC1101 bridge command protocol engine
(`cc1101_bridge_protocol.c`, `cc1101_bridge_cc1101.c`, `cc1101_bridge_app.c`,
`cc1101_bridge_uart.c`).  Strings from the wire are modelled as `List Char`,
raw transport bytes as `List Nat`, machine integers as `Nat`/`Int` with
explicit `% 256` where the C narrows to `uint8_t`.  Hardware side effects
(`furi_hal_subghz_load_registers`, `furi_hal_subghz_load_patable`) are
recorded as an explicit event trace.
-/

/-- Brace and bracket characters, by code point. -/
def lbraceChar : Char := Char.ofNat 123

def rbraceChar : Char := Char.ofNat 125

def lbracketChar : Char := Char.ofNat 91

def rbracketChar : Char := Char.ofNat 93

/-- Command type enum `CommandType` from `cc1101_bridge_protocol.h`. -/
inductive CommandType where
  | CMD_UNKNOWN
  | CMD_WRITE_REGISTER
  | CMD_WRITE_BULK
  | CMD_READ_REGISTER
  | CMD_PING
deriving DecidableEq, Repr

export CommandType (CMD_UNKNOWN CMD_WRITE_REGISTER CMD_WRITE_BULK CMD_READ_REGISTER CMD_PING)

/-- Error code values of `ErrorCode` from `cc1101_bridge_protocol.h`. -/
def ERR_INVALID_JSON : Nat := 1

def ERR_UNKNOWN_COMMAND : Nat := 2

def ERR_INVALID_ADDRESS : Nat := 3

def ERR_DEVICE_NOT_AVAILABLE : Nat := 4

def ERR_WRITE_FAILED : Nat := 5

/-- Constant `MAX_BULK_REGISTERS` from `cc1101_bridge_protocol.h`. -/
def MAX_BULK_REGISTERS : Nat := 47

/-- Constant `CC1101_MAX_REGISTER` (0x2E) from `cc1101_bridge_cc1101.c`. -/
def CC1101_MAX_REGISTER : Nat := 46

/-- Struct `RegisterPair` from `cc1101_bridge_protocol.h`; `uint8_t` fields as `Nat`. -/
structure RegisterPair where
  addr : Nat
  value : Nat
deriving DecidableEq, Repr

/-- Struct `Command` from `cc1101_bridge_protocol.h`.  The fixed C arrays
`bulk_regs[47]` and `pa_table[8]` are modelled as the lists of their filled
entries; the `_count` fields are kept alongside as in the C struct. -/
structure Command where
  type : CommandType
  addr : Nat
  value : Nat
  bulk_regs : List RegisterPair
  bulk_count : Nat
  pa_table : List Nat
  pa_table_count : Nat
deriving DecidableEq, Repr

/-- The `memset(cmd, 0, sizeof(Command)); cmd->type = CMD_UNKNOWN` state. -/
def Command.init : Command :=
  { type := CMD_UNKNOWN, addr := 0, value := 0, bulk_regs := [], bulk_count := 0,
    pa_table := [], pa_table_count := 0 }

/-- C locale `isspace` (space, tab, LF, VT, FF, CR), as used by `atoi`. -/
def c_isspace (c : Char) : Bool :=
  c == ' ' || c == '\t' || c == '\n' || c == Char.ofNat 11 || c == Char.ofNat 12 || c == '\r'

/-- Value of the leading decimal-digit run of `s` (0 when there is none). -/
def digitsVal (s : List Char) : Nat :=
  (s.takeWhile Char.isDigit).foldl (fun a c => 10 * a + (c.toNat - 48)) 0

/-- C `atoi`: skip whitespace, optional sign, leading digit run; 0 if no digit. -/
def atoiInt (s : List Char) : Int :=
  let s1 := s.dropWhile c_isspace
  match s1 with
  | [] => 0
  | c :: tl =>
    if c = '-' then -(digitsVal tl : Int)
    else if c = '+' then (digitsVal tl : Int)
    else (digitsVal s1 : Int)

/-- An `atoi` result assigned to a `uint8_t`: reduction modulo 256. -/
def atoi8 (s : List Char) : Nat := ((atoiInt s) % 256).toNat

/-- C `strstr`: the suffix of `hay` starting at the first occurrence of `pat`,
or `none`.  (The `pat = []` case returns the whole haystack, as in C.) -/
def strstr : List Char → List Char → Option (List Char)
  | [], pat => if pat = [] then some [] else none
  | c :: tl, pat =>
    if pat.isPrefixOf (c :: tl) then some (c :: tl) else strstr tl pat

/-- C `strchr`: the suffix of `s` starting at the first occurrence of `ch`,
or `none`. -/
def strchr : List Char → Char → Option (List Char)
  | [], _ => none
  | c :: tl, ch => if c = ch then some (c :: tl) else strchr tl ch

/-- The repeated `strstr(json, key)` / `strchr(pos, ':')` / `atoi(val + 1)`
pattern used for the `addr` and `value` fields; the field stays 0 (from the
`memset`) when the key or the colon is absent. -/
def parseField (json : List Char) (key : List Char) : Nat :=
  match strstr json key with
  | none => 0
  | some suff =>
    match strchr suff ':' with
    | none => 0
    | some colSuff => atoi8 (colSuff.drop 1)

/-- The `registers` object scan of `protocol_parse_command`: character by
character from just after the `{`, collecting `"addr":value` pairs until the
closing brace, the end of the string, or 47 pairs.  `fuel` bounds the loop by
the remaining string length (each C iteration advances `p` by at least one). -/
def bulkLoop : Nat → List Char → List RegisterPair → List RegisterPair
  | 0, _, acc => acc
  | _, [], acc => acc
  | fuel + 1, c :: tl, acc =>
    if c = rbraceChar ∨ MAX_BULK_REGISTERS ≤ acc.length then acc
    else if c = '"' then
      let addr := atoi8 tl
      match tl.dropWhile (fun ch => ch ≠ ':') with
      | [] => acc
      | _ :: tl2 =>
        let value := atoi8 tl2
        bulkLoop fuel (tl2.drop 1) (acc ++ [{ addr := addr, value := value }])
    else bulkLoop fuel tl acc

/-- The `pa_table` array scan of `protocol_parse_command`: from just after the
`[`, each digit run yields one entry, until `]` is tested, the end of the
string, or 8 entries.  (As in the C, the character right after a digit run is
skipped without being tested, so a `]` directly after a number is consumed.) -/
def paLoop : Nat → List Char → List Nat → List Nat
  | 0, _, acc => acc
  | _, [], acc => acc
  | fuel + 1, c :: tl, acc =>
    if c = rbracketChar ∨ 8 ≤ acc.length then acc
    else if c.isDigit then
      let v := atoi8 (c :: tl)
      paLoop fuel (((c :: tl).dropWhile Char.isDigit).drop 1) (acc ++ [v])
    else paLoop fuel tl acc

/-- The `registers` part of the `write_bulk` branch: find the key, find the
next `\x7b`, scan pairs. -/
def parseBulkRegs (json : List Char) : List RegisterPair :=
  match strstr json ("\"registers\"".data) with
  | none => []
  | some rSuff =>
    match strchr rSuff lbraceChar with
    | none => []
    | some objSuff => bulkLoop (objSuff.length + 1) (objSuff.drop 1) []

/-- The `pa_table` part of the `write_bulk` branch: find the key, find the
next `[`, scan digit runs. -/
def parsePaTable (json : List Char) : List Nat :=
  match strstr json ("\"pa_table\"".data) with
  | none => []
  | some pSuff =>
    match strchr pSuff lbracketChar with
    | none => []
    | some arrSuff => paLoop (arrSuff.length + 1) (arrSuff.drop 1) []

/-- Body of `protocol_parse_command`: fills a `Command` from the line.  Early
`return false` paths leave the command at its `memset` state. -/
def parseInner (json : List Char) : Command :=
  match strstr json ("\"cmd\"".data) with
  | none => Command.init
  | some cmdSuffix =>
    match strchr cmdSuffix ':' with
    | none => Command.init
    | some colonSuffix =>
      let vstart := (colonSuffix.drop 1).dropWhile (fun c => c == ' ' || c == '"')
      if ("write_register".data).isPrefixOf vstart then
        { Command.init with
          type := CMD_WRITE_REGISTER,
          addr := parseField json ("\"addr\"".data),
          value := parseField json ("\"value\"".data) }
      else if ("write_bulk".data).isPrefixOf vstart then
        { Command.init with
          type := CMD_WRITE_BULK,
          bulk_regs := parseBulkRegs json, bulk_count := (parseBulkRegs json).length,
          pa_table := parsePaTable json, pa_table_count := (parsePaTable json).length }
      else if ("read_register".data).isPrefixOf vstart then
        { Command.init with
          type := CMD_READ_REGISTER,
          addr := parseField json ("\"addr\"".data) }
      else if ("ping".data).isPrefixOf vstart then
        { Command.init with type := CMD_PING }
      else Command.init

/-- Function `protocol_parse_command`: the out-parameter `Command` together with the
returned `cmd->type != CMD_UNKNOWN`. -/
def protocol_parse_command (json : List Char) : Command × Bool :=
  let cmd := parseInner json
  (cmd, cmd.type != CMD_UNKNOWN)

/-- Function `protocol_generate_ack`. -/
def protocol_generate_ack : String := "\x7b\"type\":\"ack\",\"success\":true\x7d"

/-- Function `protocol_generate_error` (the 256-byte `snprintf` bound is never reached
by the messages the dispatcher uses). -/
def protocol_generate_error (code : Nat) (msg : String) : String :=
  "\x7b\"type\":\"error\",\"code\":" ++ Nat.repr code ++ ",\"msg\":\"" ++ msg ++ "\"\x7d"

/-- Function `protocol_generate_data`. -/
def protocol_generate_data (value : Nat) : String :=
  "\x7b\"type\":\"data\",\"value\":" ++ Nat.repr value ++ "\x7d"

/-- Context struct `Cc1101Context` from `cc1101_bridge_cc1101.c`. -/
structure Cc1101Context where
  initialized : Bool
deriving DecidableEq, Repr

/-- Calls into `furi_hal_subghz`, recorded as events. -/
inductive HwEvent where
  | loadRegisters : List Nat → HwEvent
  | loadPatable : List Nat → HwEvent
deriving DecidableEq, Repr

/-- Function `cc1101_write_register`. -/
def cc1101_write_register (ctx : Cc1101Context) (addr value : Nat) :
    Bool × List HwEvent :=
  if ¬ ctx.initialized then (false, [])
  else if CC1101_MAX_REGISTER < addr then (false, [])
  else (true, [HwEvent.loadRegisters [addr, value, 0, 0]])

/-- The validation/flattening loop of `cc1101_write_bulk`: `none` as soon as
some address exceeds `CC1101_MAX_REGISTER` (the C returns `false` there with
no hardware call), otherwise the flattened `addr, value` data. -/
def buildRegData : List RegisterPair → Option (List Nat)
  | [] => some []
  | r :: tl =>
    if CC1101_MAX_REGISTER < r.addr then none
    else
      match buildRegData tl with
      | none => none
      | some rest => some (r.addr :: r.value :: rest)

/-- Function `cc1101_write_bulk`; the C reads `regs[0..count)`. -/
def cc1101_write_bulk (ctx : Cc1101Context) (regs : List RegisterPair) (count : Nat) :
    Bool × List HwEvent :=
  if ¬ ctx.initialized then (false, [])
  else
    match buildRegData (regs.take count) with
    | none => (false, [])
    | some d => (true, [HwEvent.loadRegisters (d ++ [0, 0])])

/-- Function `cc1101_write_patable`: clamp `count` to 8, copy the first `count`
entries into a zero-initialized 8-slot table, load it. -/
def cc1101_write_patable (ctx : Cc1101Context) (pa : List Nat) (count : Nat) :
    Bool × List HwEvent :=
  if ¬ ctx.initialized then (false, [])
  else
    let c := min count 8
    let full := (List.range 8).map (fun i => if i < c then pa.getD i 0 else 0)
    (true, [HwEvent.loadPatable full])

/-- Function `cc1101_read_register`: no HAL read exists, so an initialized in-range
read returns 0, as do the uninitialized and out-of-range paths. -/
def cc1101_read_register (ctx : Cc1101Context) (addr : Nat) : Nat :=
  if ¬ ctx.initialized then 0
  else if CC1101_MAX_REGISTER < addr then 0
  else 0

/-- The `switch(cmd.type)` of `app_process_command`: response line and the
hardware event trace of the dispatch. -/
def app_dispatch (ctx : Cc1101Context) (cmd : Command) : String × List HwEvent :=
  match cmd.type with
  | CMD_WRITE_REGISTER =>
    let r := cc1101_write_register ctx cmd.addr cmd.value
    if r.1 then (protocol_generate_ack, r.2)
    else (protocol_generate_error ERR_WRITE_FAILED "Write failed", r.2)
  | CMD_WRITE_BULK =>
    let r1 := cc1101_write_bulk ctx cmd.bulk_regs cmd.bulk_count
    if r1.1 ∧ 0 < cmd.pa_table_count then
      let r2 := cc1101_write_patable ctx cmd.pa_table cmd.pa_table_count
      if r2.1 then (protocol_generate_ack, r1.2 ++ r2.2)
      else (protocol_generate_error ERR_WRITE_FAILED "Bulk write failed", r1.2 ++ r2.2)
    else if r1.1 then (protocol_generate_ack, r1.2)
    else (protocol_generate_error ERR_WRITE_FAILED "Bulk write failed", r1.2)
  | CMD_READ_REGISTER =>
    (protocol_generate_data (cc1101_read_register ctx cmd.addr), [])
  | CMD_PING => (protocol_generate_ack, [])
  | CMD_UNKNOWN =>
    (protocol_generate_error ERR_UNKNOWN_COMMAND "Unknown command", [])

/-- Function `app_process_command`: parse, then either the `Invalid JSON` error or the
dispatch of the parsed command. -/
def app_process_command (ctx : Cc1101Context) (json : List Char) :
    String × List HwEvent :=
  let pr := protocol_parse_command json
  if pr.2 then app_dispatch ctx pr.1
  else (protocol_generate_error ERR_INVALID_JSON "Invalid JSON", [])

/-- Successive lines processed by the main loop; the backend context is never
written after `cc1101_init`, so it is the same for every line. -/
def app_process_lines (ctx : Cc1101Context) : List (List Char) → List String
  | [] => []
  | l :: tl => (app_process_command ctx l).1 :: app_process_lines ctx tl

/-- Line reassembler state from `cc1101_bridge_uart.c`: `line_buffer` holds
the first `line_pos` accumulated bytes. -/
structure UartState where
  line_buffer : List Nat
  line_pos : Nat
deriving DecidableEq, Repr

/-- Constant `LINE_BUFFER_SIZE` from `cc1101_bridge_uart.c`. -/
def LINE_BUFFER_SIZE : Nat := 1024

/-- One step of the byte loop inside `uart_receive_line`: CR/LF emits the
accumulator when non-empty; otherwise the byte is stored while
`line_pos < LINE_BUFFER_SIZE - 1`, and at capacity the accumulator is
silently reset with the byte dropped. -/
def uart_process_byte (st : UartState) (c : Nat) : UartState × Option (List Nat) :=
  if c = 10 ∨ c = 13 then
    if 0 < st.line_pos then ({ line_buffer := [], line_pos := 0 }, some st.line_buffer)
    else (st, none)
  else if st.line_pos < LINE_BUFFER_SIZE - 1 then
    ({ line_buffer := st.line_buffer ++ [c], line_pos := st.line_pos + 1 }, none)
  else ({ line_buffer := [], line_pos := 0 }, none)

/-- Feeding a burst of received bytes through the byte loop, collecting every
complete line it delivers, in order. -/
def uart_feed : List Nat → UartState → UartState × List (List Nat)
  | [], st => (st, [])
  | c :: tl, st =>
    let r := uart_process_byte st c
    let rest := uart_feed tl r.1
    (rest.1, r.2.toList ++ rest.2)

/-- The empty accumulator (`line_pos = 0` after `uart_init`). -/
def UartState.empty : UartState := { line_buffer := [], line_pos := 0 }

/-- Bytes of a wire string. -/
def strBytes (s : String) : List Nat := s.data.map Char.toNat

theorem uart_feed_append (xs ys : List Nat) (st : UartState) :
    uart_feed (xs ++ ys) st =
      ((uart_feed ys (uart_feed xs st).1).1,
        (uart_feed xs st).2 ++ (uart_feed ys (uart_feed xs st).1).2) := by
  induction xs generalizing st with
  | nil => simp [uart_feed]
  | cons c tl ih => simp [uart_feed, ih, List.append_assoc]

theorem uart_feed_nonterm (bs : List Nat) (st : UartState)
    (hb : ∀ b ∈ bs, ¬(b = 10 ∨ b = 13))
    (hlen : st.line_pos + bs.length ≤ LINE_BUFFER_SIZE - 1) :
    uart_feed bs st =
      ({ line_buffer := st.line_buffer ++ bs, line_pos := st.line_pos + bs.length }, []) := by
  induction bs generalizing st with
  | nil => simp [uart_feed]
  | cons c tl ih =>
    have hc : ¬(c = 10 ∨ c = 13) := hb c (List.mem_cons_self c tl)
    have hlt : st.line_pos < LINE_BUFFER_SIZE - 1 := by
      simp [LINE_BUFFER_SIZE] at hlen ⊢
      omega
    have step : uart_process_byte st c =
        ({ line_buffer := st.line_buffer ++ [c], line_pos := st.line_pos + 1 }, none) := by
      simp [uart_process_byte, hc, hlt]
    have htl : ∀ b ∈ tl, ¬(b = 10 ∨ b = 13) := fun b hbm => hb b (List.mem_cons_of_mem _ hbm)
    have hlen2 : st.line_pos + 1 + tl.length ≤ LINE_BUFFER_SIZE - 1 := by
      simp [LINE_BUFFER_SIZE] at hlen ⊢
      omega
    simp only [uart_feed, step]
    rw [ih _ htl hlen2]
    simp [List.append_assoc]
    omega

theorem uart_feed_overflow_run (j : Nat) (body : List Nat)
    (hj : ¬(j = 10 ∨ j = 13))
    (hbody : ∀ b ∈ body, ¬(b = 10 ∨ b = 13))
    (hlen : body.length ≤ 47) :
    uart_feed (List.replicate 2000 j ++ (body ++ [10])) UartState.empty =
      (UartState.empty, [List.replicate 976 j ++ body]) := by
  have hsplit : List.replicate 2000 j =
      List.replicate 1023 j ++ (List.replicate 1 j ++ List.replicate 976 j) := by
    rw [← List.replicate_add, ← List.replicate_add]
  have hj1023 : ∀ b ∈ List.replicate 1023 j, ¬(b = 10 ∨ b = 13) := by
    intro b hbm
    rw [List.eq_of_mem_replicate hbm]
    exact hj
  have hj976 : ∀ b ∈ List.replicate 976 j, ¬(b = 10 ∨ b = 13) := by
    intro b hbm
    rw [List.eq_of_mem_replicate hbm]
    exact hj
  have h1 : uart_feed (List.replicate 1023 j) UartState.empty =
      ({ line_buffer := List.replicate 1023 j, line_pos := 1023 }, []) := by
    rw [uart_feed_nonterm _ _ hj1023
      (by simp only [UartState.empty, List.length_replicate, LINE_BUFFER_SIZE]; omega)]
    simp only [UartState.empty, List.nil_append, List.length_replicate, Nat.zero_add]
  have h2 : uart_feed (List.replicate 1 j)
      { line_buffer := List.replicate 1023 j, line_pos := 1023 } =
      ({ line_buffer := [], line_pos := 0 }, []) := by
    rw [List.replicate_one]
    simp only [uart_feed, uart_process_byte, LINE_BUFFER_SIZE]
    rw [if_neg hj, if_neg (by omega : ¬ (1023 : Nat) < 1024 - 1)]
    rfl
  have h3 : uart_feed (List.replicate 976 j) { line_buffer := [], line_pos := 0 } =
      ({ line_buffer := List.replicate 976 j, line_pos := 976 }, []) := by
    rw [uart_feed_nonterm _ _ hj976
      (by simp only [List.length_replicate, LINE_BUFFER_SIZE]; omega)]
    simp only [List.nil_append, List.length_replicate, Nat.zero_add]
  have h4 : uart_feed body { line_buffer := List.replicate 976 j, line_pos := 976 } =
      ({ line_buffer := List.replicate 976 j ++ body, line_pos := 976 + body.length }, []) := by
    rw [uart_feed_nonterm _ _ hbody (by simp only [LINE_BUFFER_SIZE]; omega)]
  have hpos : 0 < 976 + body.length := by omega
  have h5 : uart_feed [10]
      { line_buffer := List.replicate 976 j ++ body, line_pos := 976 + body.length } =
      ({ line_buffer := [], line_pos := 0 }, [List.replicate 976 j ++ body]) := by
    simp only [uart_feed, uart_process_byte]
    rw [if_pos (Or.inl trivial), if_pos hpos]
    rfl
  rw [hsplit]
  rw [List.append_assoc, List.append_assoc]
  rw [uart_feed_append, h1]
  rw [uart_feed_append, h2]
  rw [uart_feed_append, h3]
  rw [uart_feed_append, h4]
  rw [h5]
  rfl

/-- Claim C1 (counterexample): feeding 2000 junk bytes and then the
well-formed `ping` line does not deliver the `ping` line alone. -/
theorem uart_overflow_residue_cex :
    (uart_feed (List.replicate 2000 97 ++ (strBytes "\x7b\"cmd\":\"ping\"\x7d" ++ [10]))
        UartState.empty).2 ≠ [strBytes "\x7b\"cmd\":\"ping\"\x7d"] := by
  rw [uart_feed_overflow_run 97 _ (by decide) (by decide) (by decide)]
  simp only [ne_eq, List.cons.injEq, and_true]
  intro h
  have hl := congrArg List.length h
  simp only [List.length_append, List.length_replicate] at hl
  omega

/-- Claim C1 (amended): feeding 2000 non-terminator bytes followed by a
complete well-formed command line delivers exactly one line, but not the
well-formed line alone: the first 1024 junk bytes vanish without a truncated
line or an error, while the 976 junk bytes received after the capacity reset
re-accumulate and are delivered as a prefix of the single delivered line. -/
theorem uart_overflow_residue_prefixes_next_line (j : Nat) (body : List Nat)
    (hj : ¬(j = 10 ∨ j = 13))
    (hbody : ∀ b ∈ body, ¬(b = 10 ∨ b = 13))
    (hlen : body.length ≤ 47) :
    uart_feed (List.replicate 2000 j ++ (body ++ [10])) UartState.empty =
      (UartState.empty, [List.replicate 976 j ++ body]) :=
  uart_feed_overflow_run j body hj hbody hlen

/-- Witness for C1 (amended), at 2000 junk bytes 97 and the `ping` line. -/
theorem uart_overflow_residue_prefixes_next_line_witness :
    uart_feed (List.replicate 2000 97 ++ (strBytes "\x7b\"cmd\":\"ping\"\x7d" ++ [10]))
        UartState.empty =
      (UartState.empty, [List.replicate 976 97 ++ strBytes "\x7b\"cmd\":\"ping\"\x7d"]) :=
  uart_overflow_residue_prefixes_next_line 97 _ (by decide) (by decide) (by decide)

theorem cc1101_read_register_eq_zero (ctx : Cc1101Context) (addr : Nat) :
    cc1101_read_register ctx addr = 0 := by
  unfold cc1101_read_register
  split
  · rfl
  · split <;> rfl

theorem buildRegData_eq_none {l : List RegisterPair}
    (h : ∃ p ∈ l, CC1101_MAX_REGISTER < p.addr) : buildRegData l = none := by
  induction l with
  | nil => simp at h
  | cons r tl ih =>
    rcases h with ⟨p, hp, hgt⟩
    rcases List.mem_cons.mp hp with rfl | hmem
    · simp [buildRegData, hgt]
    · by_cases hr : CC1101_MAX_REGISTER < r.addr
      · simp [buildRegData, hr]
      · simp [buildRegData, hr, ih ⟨p, hmem, hgt⟩]

/-- Claim C2: a `write_register` command dispatched against an initialized
backend is acknowledged with the fixed ack line for every addr in 0..=46, and
answered with the `WriteFailed` (code 5) error line for every addr > 46; the
`InvalidAddress` (code 3) error is never produced. -/
theorem write_register_dispatch_ack_or_write_failed
    (ctx : Cc1101Context) (cmd : Command)
    (hinit : ctx.initialized = true)
    (htype : cmd.type = CMD_WRITE_REGISTER) :
    (cmd.addr ≤ 46 → app_dispatch ctx cmd = (protocol_generate_ack,
        [HwEvent.loadRegisters [cmd.addr, cmd.value, 0, 0]])) ∧
    (46 < cmd.addr → app_dispatch ctx cmd =
        (protocol_generate_error 5 "Write failed", [])) := by
  constructor
  · intro h
    have hno : ¬ CC1101_MAX_REGISTER < cmd.addr := by
      simp [CC1101_MAX_REGISTER]; omega
    simp [app_dispatch, htype, cc1101_write_register, hinit, hno]
  · intro h
    have hyes : CC1101_MAX_REGISTER < cmd.addr := by
      simp [CC1101_MAX_REGISTER]; omega
    simp [app_dispatch, htype, cc1101_write_register, hinit, hyes, ERR_WRITE_FAILED]

/-- Witness for C2 at addr 15 (ack) and addr 99 (code-5 error). -/
theorem write_register_dispatch_witness :
    app_dispatch ⟨true⟩
        { Command.init with type := CMD_WRITE_REGISTER, addr := 15, value := 200 } =
      (protocol_generate_ack, [HwEvent.loadRegisters [15, 200, 0, 0]]) ∧
    app_dispatch ⟨true⟩
        { Command.init with type := CMD_WRITE_REGISTER, addr := 99, value := 1 } =
      (protocol_generate_error 5 "Write failed", []) :=
  ⟨(write_register_dispatch_ack_or_write_failed ⟨true⟩ _ rfl rfl).1 (by decide),
   (write_register_dispatch_ack_or_write_failed ⟨true⟩ _ rfl rfl).2 (by decide)⟩

/-- Claim C3: a `write_bulk` dispatch whose register set (the first
`bulk_count` pairs) contains an out-of-range address yields the code-5 error
and performs no hardware call at all. -/
theorem write_bulk_invalid_addr_no_hw_call
    (ctx : Cc1101Context) (cmd : Command)
    (htype : cmd.type = CMD_WRITE_BULK)
    (hbad : ∃ p ∈ cmd.bulk_regs.take cmd.bulk_count, 46 < p.addr) :
    app_dispatch ctx cmd = (protocol_generate_error 5 "Bulk write failed", []) := by
  have hnone : buildRegData (cmd.bulk_regs.take cmd.bulk_count) = none :=
    buildRegData_eq_none (by simpa [CC1101_MAX_REGISTER] using hbad)
  have hbulk : cc1101_write_bulk ctx cmd.bulk_regs cmd.bulk_count = (false, []) := by
    unfold cc1101_write_bulk
    split
    · rfl
    · rw [hnone]
  simp [app_dispatch, htype, hbulk, ERR_WRITE_FAILED]

/-- Witness for C3 at the singleton bulk set with addr 99. -/
theorem write_bulk_invalid_addr_witness :
    app_dispatch ⟨true⟩
        { Command.init with
            type := CMD_WRITE_BULK,
            bulk_regs := [({ addr := 99, value := 1 } : RegisterPair)],
            bulk_count := 1 } =
      (protocol_generate_error 5 "Bulk write failed", []) :=
  write_bulk_invalid_addr_no_hw_call ⟨true⟩ _ rfl
    ⟨({ addr := 99, value := 1 } : RegisterPair), by decide, by decide⟩

/-- Claim C4: a `read_register` dispatch against an initialized backend always
answers with a data line carrying a value in 0..=255 and never with an error;
an out-of-range addr reads 0 from the backend. -/
theorem read_register_dispatch_always_data
    (ctx : Cc1101Context) (cmd : Command)
    (_hinit : ctx.initialized = true)
    (htype : cmd.type = CMD_READ_REGISTER) :
    (∃ v, v ≤ 255 ∧ app_dispatch ctx cmd = (protocol_generate_data v, [])) ∧
    (46 < cmd.addr → cc1101_read_register ctx cmd.addr = 0) := by
  refine ⟨⟨cc1101_read_register ctx cmd.addr, ?_, ?_⟩, fun _ => cc1101_read_register_eq_zero ctx cmd.addr⟩
  · rw [cc1101_read_register_eq_zero]
    omega
  · simp [app_dispatch, htype]

/-- Witness for C4 at addr 10. -/
theorem read_register_dispatch_witness :
    (∃ v, v ≤ 255 ∧ app_dispatch ⟨true⟩
        { Command.init with type := CMD_READ_REGISTER, addr := 10 } =
      (protocol_generate_data v, [])) ∧
    (46 < (10 : Nat) → cc1101_read_register ⟨true⟩ 10 = 0) := by
  have h := read_register_dispatch_always_data ⟨true⟩
    { Command.init with type := CMD_READ_REGISTER, addr := 10 } rfl rfl
  exact ⟨h.1, fun _ => cc1101_read_register_eq_zero _ _⟩

theorem ack_ne_unknown_error :
    protocol_generate_ack ≠ protocol_generate_error ERR_UNKNOWN_COMMAND "Unknown command" := by
  decide

theorem write_failed_ne_unknown_error :
    protocol_generate_error ERR_WRITE_FAILED "Write failed" ≠
      protocol_generate_error ERR_UNKNOWN_COMMAND "Unknown command" := by
  decide

theorem bulk_failed_ne_unknown_error :
    protocol_generate_error ERR_WRITE_FAILED "Bulk write failed" ≠
      protocol_generate_error ERR_UNKNOWN_COMMAND "Unknown command" := by
  decide

theorem data_zero_ne_unknown_error :
    protocol_generate_data 0 ≠ protocol_generate_error ERR_UNKNOWN_COMMAND "Unknown command" := by
  decide

theorem invalid_json_ne_unknown_error :
    protocol_generate_error ERR_INVALID_JSON "Invalid JSON" ≠
      protocol_generate_error ERR_UNKNOWN_COMMAND "Unknown command" := by
  decide

theorem bulk_failed_ne_ack :
    protocol_generate_error ERR_WRITE_FAILED "Bulk write failed" ≠ protocol_generate_ack := by
  decide

theorem app_dispatch_ne_unknown_error (ctx : Cc1101Context) (cmd : Command)
    (h : cmd.type ≠ CMD_UNKNOWN) :
    (app_dispatch ctx cmd).1 ≠ protocol_generate_error ERR_UNKNOWN_COMMAND "Unknown command" := by
  cases htype : cmd.type with
  | CMD_UNKNOWN => exact absurd htype h
  | CMD_WRITE_REGISTER =>
    simp only [app_dispatch, htype]
    split
    · exact ack_ne_unknown_error
    · exact write_failed_ne_unknown_error
  | CMD_WRITE_BULK =>
    simp only [app_dispatch, htype]
    split
    · split
      · exact ack_ne_unknown_error
      · exact bulk_failed_ne_unknown_error
    · split
      · exact ack_ne_unknown_error
      · exact bulk_failed_ne_unknown_error
  | CMD_READ_REGISTER =>
    simp only [app_dispatch, htype, cc1101_read_register_eq_zero]
    exact data_zero_ne_unknown_error
  | CMD_PING =>
    simp only [app_dispatch, htype]
    exact ack_ne_unknown_error

/-- Claim C5: a line in which the parser recognizes none of the four command
key phrases is answered with the `InvalidJson` (code 1) error; the parser
succeeds exactly when the command type is one of the four known variants,
so the dispatcher's `UnknownCommand` (code 2) branch is unreachable for every
input line. -/
theorem parser_unknown_maps_to_invalid_json (ctx : Cc1101Context) (json : List Char) :
    ((protocol_parse_command json).2 = true ↔
      (protocol_parse_command json).1.type ≠ CMD_UNKNOWN) ∧
    ((protocol_parse_command json).2 = false →
      (app_process_command ctx json).1 =
        protocol_generate_error ERR_INVALID_JSON "Invalid JSON") ∧
    (app_process_command ctx json).1 ≠
      protocol_generate_error ERR_UNKNOWN_COMMAND "Unknown command" := by
  refine ⟨?_, ?_, ?_⟩
  · simp [protocol_parse_command]
  · intro h
    simp only [app_process_command]
    rw [if_neg (by simp [h])]
  · by_cases h2 : (protocol_parse_command json).2 = true
    · have hne : (protocol_parse_command json).1.type ≠ CMD_UNKNOWN := by
        simpa [protocol_parse_command] using h2
      simp only [app_process_command]
      rw [if_pos (by simp [h2])]
      exact app_dispatch_ne_unknown_error ctx _ hne
    · simp only [app_process_command]
      rw [if_neg (by simpa using h2)]
      exact invalid_json_ne_unknown_error

/-- Witness for C5 at the line `not json at all`. -/
theorem parser_unknown_witness :
    (app_process_command ⟨true⟩ ("not json at all".data)).1 =
      protocol_generate_error ERR_INVALID_JSON "Invalid JSON" ∧
    (app_process_command ⟨true⟩ ("not json at all".data)).1 ≠
      protocol_generate_error ERR_UNKNOWN_COMMAND "Unknown command" :=
  ⟨(parser_unknown_maps_to_invalid_json ⟨true⟩ ("not json at all".data)).2.1 (by decide),
   (parser_unknown_maps_to_invalid_json ⟨true⟩ ("not json at all".data)).2.2⟩

/-- Claim C6: in a `write_bulk` dispatch the bulk register write is applied
first; the pa table write is attempted only when the bulk write succeeded and
`pa_table_count > 0`; the result is the ack line exactly when the bulk write
succeeds (the reference pa-table write always succeeds on an initialized
backend); and the pa-table hardware call zero-fills every trailing slot
beyond the supplied count up to 8 entries. -/
theorem write_bulk_order_and_patable_zero_fill
    (ctx : Cc1101Context) (cmd : Command)
    (hinit : ctx.initialized = true)
    (htype : cmd.type = CMD_WRITE_BULK) :
    ((cc1101_write_bulk ctx cmd.bulk_regs cmd.bulk_count).1 = false →
      app_dispatch ctx cmd =
        (protocol_generate_error ERR_WRITE_FAILED "Bulk write failed",
          (cc1101_write_bulk ctx cmd.bulk_regs cmd.bulk_count).2)) ∧
    ((cc1101_write_bulk ctx cmd.bulk_regs cmd.bulk_count).1 = true →
      cmd.pa_table_count = 0 →
      app_dispatch ctx cmd =
        (protocol_generate_ack, (cc1101_write_bulk ctx cmd.bulk_regs cmd.bulk_count).2)) ∧
    ((cc1101_write_bulk ctx cmd.bulk_regs cmd.bulk_count).1 = true →
      0 < cmd.pa_table_count →
      app_dispatch ctx cmd =
        (protocol_generate_ack,
          (cc1101_write_bulk ctx cmd.bulk_regs cmd.bulk_count).2 ++
            [HwEvent.loadPatable ((List.range 8).map (fun i =>
              if i < min cmd.pa_table_count 8 then cmd.pa_table.getD i 0 else 0))])) ∧
    ((app_dispatch ctx cmd).1 = protocol_generate_ack ↔
      (cc1101_write_bulk ctx cmd.bulk_regs cmd.bulk_count).1 = true) := by
  have hpat : cc1101_write_patable ctx cmd.pa_table cmd.pa_table_count =
      (true, [HwEvent.loadPatable ((List.range 8).map (fun i =>
        if i < min cmd.pa_table_count 8 then cmd.pa_table.getD i 0 else 0))]) := by
    simp [cc1101_write_patable, hinit]
  refine ⟨?_, ?_, ?_, ?_⟩
  · intro h
    simp only [app_dispatch, htype]
    simp [h]
  · intro h h0
    simp only [app_dispatch, htype]
    simp [h, h0]
  · intro h h0
    simp only [app_dispatch, htype]
    simp [h, h0, hpat]
  · by_cases h : (cc1101_write_bulk ctx cmd.bulk_regs cmd.bulk_count).1 = true
    · by_cases h0 : 0 < cmd.pa_table_count
      · simp only [app_dispatch, htype]
        simp [h, h0, hpat]
      · simp only [app_dispatch, htype]
        simp [h, h0]
    · have hf : (cc1101_write_bulk ctx cmd.bulk_regs cmd.bulk_count).1 = false :=
        Bool.eq_false_iff.mpr h
      simp only [app_dispatch, htype]
      rw [if_neg (by simp [hf]), if_neg (by simp [hf])]
      exact iff_of_false bulk_failed_ne_ack (by simp [hf])

/-- Witness for C6 at a one-register bulk set with a one-entry pa table. -/
theorem write_bulk_order_witness :
    app_dispatch ⟨true⟩
        { Command.init with
            type := CMD_WRITE_BULK,
            bulk_regs := [({ addr := 0, value := 10 } : RegisterPair)],
            bulk_count := 1,
            pa_table := [3],
            pa_table_count := 1 } =
      (protocol_generate_ack,
        (cc1101_write_bulk ⟨true⟩ [({ addr := 0, value := 10 } : RegisterPair)] 1).2 ++
          [HwEvent.loadPatable ((List.range 8).map (fun i =>
            if i < min 1 8 then [3].getD i 0 else 0))]) :=
  (write_bulk_order_and_patable_zero_fill ⟨true⟩ _ rfl rfl).2.2.1 (by decide) (by decide)

theorem atoi8_lt_256 (s : List Char) : atoi8 s < 256 := by
  unfold atoi8
  have h1 : 0 ≤ atoiInt s % 256 := Int.emod_nonneg _ (by norm_num)
  have h2 : atoiInt s % 256 < 256 := Int.emod_lt_of_pos _ (by norm_num)
  omega

theorem parseField_lt_256 (json key : List Char) : parseField json key < 256 := by
  unfold parseField
  split
  · omega
  · split
    · omega
    · exact atoi8_lt_256 _

theorem parseField_eq_zero_of_absent (json key : List Char)
    (h : strstr json key = none) : parseField json key = 0 := by
  simp [parseField, h]

theorem parseInner_addr_cases (json : List Char) :
    (parseInner json).addr = 0 ∨
      (parseInner json).addr = parseField json ("\"addr\"".data) := by
  unfold parseInner
  split
  · exact Or.inl rfl
  · split
    · exact Or.inl rfl
    · dsimp only
      split
      · exact Or.inr rfl
      · split
        · exact Or.inl rfl
        · split
          · exact Or.inr rfl
          · split
            · exact Or.inl rfl
            · exact Or.inl rfl

theorem parseInner_value_cases (json : List Char) :
    (parseInner json).value = 0 ∨
      (parseInner json).value = parseField json ("\"value\"".data) := by
  unfold parseInner
  split
  · exact Or.inl rfl
  · split
    · exact Or.inl rfl
    · dsimp only
      split
      · exact Or.inr rfl
      · split
        · exact Or.inl rfl
        · split
          · exact Or.inl rfl
          · split
            · exact Or.inl rfl
            · exact Or.inl rfl

theorem bulkLoop_length_le (fuel : Nat) (rest : List Char) (acc : List RegisterPair)
    (h : acc.length ≤ MAX_BULK_REGISTERS) :
    (bulkLoop fuel rest acc).length ≤ MAX_BULK_REGISTERS := by
  induction fuel generalizing rest acc with
  | zero => simpa [bulkLoop] using h
  | succ n ih =>
    cases rest with
    | nil => simpa [bulkLoop] using h
    | cons c tl =>
      rw [bulkLoop]
      split
      · exact h
      · rename_i hstop
        split
        · split
          · exact h
          · apply ih
            simp only [List.length_append, List.length_cons, List.length_nil]
            simp only [not_or, not_le] at hstop
            omega
        · exact ih tl acc h

theorem paLoop_length_le (fuel : Nat) (rest : List Char) (acc : List Nat)
    (h : acc.length ≤ 8) : (paLoop fuel rest acc).length ≤ 8 := by
  induction fuel generalizing rest acc with
  | zero => simpa [paLoop] using h
  | succ n ih =>
    cases rest with
    | nil => simpa [paLoop] using h
    | cons c tl =>
      rw [paLoop]
      split
      · exact h
      · rename_i hstop
        split
        · apply ih
          simp only [List.length_append, List.length_cons, List.length_nil]
          simp only [not_or, not_le] at hstop
          omega
        · exact ih tl acc h

theorem parseBulkRegs_length_le (json : List Char) :
    (parseBulkRegs json).length ≤ MAX_BULK_REGISTERS := by
  unfold parseBulkRegs
  split
  · simp [MAX_BULK_REGISTERS]
  · split
    · simp [MAX_BULK_REGISTERS]
    · exact bulkLoop_length_le _ _ [] (by simp [MAX_BULK_REGISTERS])

theorem parsePaTable_length_le (json : List Char) : (parsePaTable json).length ≤ 8 := by
  unfold parsePaTable
  split
  · simp
  · split
    · simp
    · exact paLoop_length_le _ _ [] (by simp)

theorem parseInner_bulk_count_le (json : List Char) :
    (parseInner json).bulk_count ≤ MAX_BULK_REGISTERS := by
  unfold parseInner
  split
  · simp [Command.init, MAX_BULK_REGISTERS]
  · split
    · simp [Command.init, MAX_BULK_REGISTERS]
    · dsimp only
      split
      · simp [Command.init, MAX_BULK_REGISTERS]
      · split
        · exact parseBulkRegs_length_le json
        · split
          · simp [Command.init, MAX_BULK_REGISTERS]
          · split
            · simp [Command.init, MAX_BULK_REGISTERS]
            · simp [Command.init, MAX_BULK_REGISTERS]

theorem parseInner_pa_count_le (json : List Char) :
    (parseInner json).pa_table_count ≤ 8 := by
  unfold parseInner
  split
  · simp [Command.init, MAX_BULK_REGISTERS]
  · split
    · simp [Command.init, MAX_BULK_REGISTERS]
    · dsimp only
      split
      · simp [Command.init, MAX_BULK_REGISTERS]
      · split
        · exact parsePaTable_length_le json
        · split
          · simp [Command.init, MAX_BULK_REGISTERS]
          · split
            · simp [Command.init, MAX_BULK_REGISTERS]
            · simp [Command.init, MAX_BULK_REGISTERS]

/-- Claim C7: integer fields default to 0 when their key label is absent from
the line; every parsed integer is reduced modulo 256, so values of 300 and -1
parse (not rejected) as 44 and 255. -/
theorem parse_integer_defaults_and_truncation (json : List Char) :
    (strstr json ("\"addr\"".data) = none → (protocol_parse_command json).1.addr = 0) ∧
    (strstr json ("\"value\"".data) = none → (protocol_parse_command json).1.value = 0) ∧
    (protocol_parse_command json).1.addr < 256 ∧
    (protocol_parse_command json).1.value < 256 ∧
    protocol_parse_command ("\x7b\"cmd\":\"write_register\",\"addr\":300,\"value\":-1\x7d".data) =
      ({ Command.init with type := CMD_WRITE_REGISTER, addr := 44, value := 255 }, true) := by
  have hfst : (protocol_parse_command json).1 = parseInner json := rfl
  refine ⟨?_, ?_, ?_, ?_, by decide⟩
  · intro habs
    rw [hfst]
    rcases parseInner_addr_cases json with h0 | hp
    · exact h0
    · rw [hp, parseField_eq_zero_of_absent _ _ habs]
  · intro habs
    rw [hfst]
    rcases parseInner_value_cases json with h0 | hp
    · exact h0
    · rw [hp, parseField_eq_zero_of_absent _ _ habs]
  · rw [hfst]
    rcases parseInner_addr_cases json with h0 | hp
    · omega
    · rw [hp]
      exact parseField_lt_256 _ _
  · rw [hfst]
    rcases parseInner_value_cases json with h0 | hp
    · omega
    · rw [hp]
      exact parseField_lt_256 _ _

/-- Witness for C7: a `write_register` line with no `addr` or `value` key
parses with both fields 0. -/
theorem parse_integer_defaults_witness :
    (protocol_parse_command ("\x7b\"cmd\":\"write_register\"\x7d".data)).1.addr = 0 ∧
    (protocol_parse_command ("\x7b\"cmd\":\"write_register\"\x7d".data)).1.value = 0 :=
  ⟨(parse_integer_defaults_and_truncation _).1 (by decide),
   (parse_integer_defaults_and_truncation _).2.1 (by decide)⟩

/-- A `write_bulk` line whose `registers` object holds 50 key/value pairs
(the first two sharing the key 0). -/
def bulk_fifty_line : String :=
  "\x7b\"cmd\":\"write_bulk\",\"registers\":\x7b\"0\":100,\"0\":101,\"2\":2,\"3\":3,\"4\":4,\"5\":5,\"6\":6,\"7\":7,\"8\":8,\"9\":9,\"10\":10,\"11\":11,\"12\":12,\"13\":13,\"14\":14,\"15\":15,\"16\":16,\"17\":17,\"18\":18,\"19\":19,\"20\":20,\"21\":21,\"22\":22,\"23\":23,\"24\":24,\"25\":25,\"26\":26,\"27\":27,\"28\":28,\"29\":29,\"30\":30,\"31\":31,\"32\":32,\"33\":33,\"34\":34,\"35\":35,\"36\":36,\"37\":37,\"38\":38,\"39\":39,\"40\":40,\"41\":41,\"42\":42,\"43\":43,\"44\":44,\"45\":45,\"46\":46,\"47\":47,\"48\":48,\"49\":49\x7d\x7d"

/-- The 47 pairs the parser keeps from `bulk_fifty_line`, in parse order. -/
def bulk_fifty_expected : List RegisterPair :=
  ({ addr := 0, value := 100 } : RegisterPair) ::
    ({ addr := 0, value := 101 } : RegisterPair) ::
      (List.range' 2 45).map (fun k => { addr := k, value := k })

set_option maxRecDepth 4000 in
/-- Claim C8: every parsed command has `bulk_count` at most 47 and
`pa_table_count` at most 8; a `registers` object with 50 pairs yields exactly
the first 47 pairs, in parse order, duplicates kept. -/
theorem parse_bulk_and_pa_bounds (json : List Char) :
    (protocol_parse_command json).1.bulk_count ≤ 47 ∧
    (protocol_parse_command json).1.pa_table_count ≤ 8 ∧
    protocol_parse_command bulk_fifty_line.data =
      ({ Command.init with
          type := CMD_WRITE_BULK,
          bulk_regs := bulk_fifty_expected,
          bulk_count := 47 }, true) := by
  refine ⟨?_, ?_, by decide⟩
  · have h := parseInner_bulk_count_le json
    simpa [MAX_BULK_REGISTERS] using h
  · exact parseInner_pa_count_le json

/-- Claim C9: with the reference backend, a register read never touches
hardware and returns 0 for every address, so every successfully parsed
`read_register` line is answered with the data line for value 0, whatever
writes were processed before. -/
theorem reference_backend_read_always_zero (ctx : Cc1101Context) (json : List Char)
    (_hinit : ctx.initialized = true)
    (htype : (protocol_parse_command json).1.type = CMD_READ_REGISTER) :
    app_process_command ctx json = (protocol_generate_data 0, []) := by
  have hok : (protocol_parse_command json).2 = true := by
    simp only [protocol_parse_command] at htype ⊢
    simp [htype]
  simp only [app_process_command]
  rw [if_pos hok]
  simp only [app_dispatch, htype, cc1101_read_register_eq_zero]

/-- Witness for C9 at the `read_register` line for addr 10. -/
theorem reference_backend_read_witness :
    app_process_command ⟨true⟩ ("\x7b\"cmd\":\"read_register\",\"addr\":10\x7d".data) =
      (protocol_generate_data 0, []) :=
  reference_backend_read_always_zero ⟨true⟩ _ rfl (by decide)

/-- Claim C10: processing the same in-range `write_register` line twice in
succession against an initialized backend acknowledges both times; parsing is
a pure function of the line and no parser or encoder state persists between
the two requests. -/
theorem write_register_repeat_ack (ctx : Cc1101Context) (json : List Char)
    (hinit : ctx.initialized = true)
    (htype : (protocol_parse_command json).1.type = CMD_WRITE_REGISTER)
    (haddr : (protocol_parse_command json).1.addr ≤ 46) :
    app_process_lines ctx [json, json] = [protocol_generate_ack, protocol_generate_ack] := by
  have hok : (protocol_parse_command json).2 = true := by
    simp only [protocol_parse_command] at htype ⊢
    simp [htype]
  have hno : ¬ CC1101_MAX_REGISTER < (protocol_parse_command json).1.addr := by
    simp only [CC1101_MAX_REGISTER]
    omega
  have hone : (app_process_command ctx json).1 = protocol_generate_ack := by
    simp only [app_process_command]
    rw [if_pos hok]
    simp [app_dispatch, htype, cc1101_write_register, hinit, hno]
  simp [app_process_lines, hone]

/-- Witness for C10 at the `write_register` line for addr 15, value 200. -/
theorem write_register_repeat_witness :
    app_process_lines ⟨true⟩
        [("\x7b\"cmd\":\"write_register\",\"addr\":15,\"value\":200\x7d".data),
         ("\x7b\"cmd\":\"write_register\",\"addr\":15,\"value\":200\x7d".data)] =
      [protocol_generate_ack, protocol_generate_ack] :=
  write_register_repeat_ack ⟨true⟩ _ rfl (by decide) (by decide)
